import Mathlib

/-!
Shallow embedding of the data acquisition and caching pipeline of the
apex-backtester repository (`src/core/dataloader/base.py`,
`src/core/dataloader/binance.py`, `src/core/dataloader/exceptions.py`).

Modelling conventions:
* A pandas `DataFrame` is a list of index timestamps together with named
  columns of cells.  A cell is a numeric value (`Rat`), a float NaN, or a
  non-numeric object (modelled as a string), which is what the validation
  code distinguishes between.
* Python exceptions become an explicit error type `Exc` mirroring the
  hierarchy of `exceptions.py`: `NetworkError`, `DataValidationError` and
  `CacheError` are subclasses of `DataLoaderError`; `other` stands for any
  exception outside that hierarchy (e.g. the `TypeError` pandas raises when
  comparing an object-dtype column with a number).
* Awaited I/O (cache read/write, provider fetch) is abstracted into oracle
  fields of an environment record; the pipeline functions are pure functions
  of those oracles, and additionally report which effects they performed
  (`fetchCalled`, `writeAttempted`, `attempted`) so that frame conditions
  ("the provider is never invoked") are statable.
-/

namespace Apex

/-- The exception hierarchy of `src/core/dataloader/exceptions.py`, plus a
constructor for exceptions outside the `DataLoaderError` tree. -/
inductive Exc where
  | dataLoaderError (msg : String)
  | networkError (msg : String)
  | dataValidationError (msg : String)
  | cacheError (msg : String)
  | other (msg : String)
deriving DecidableEq, Repr

/-- Python `isinstance(e, CacheError)`. -/
def Exc.isCacheError : Exc → Bool
  | .cacheError _ => true
  | _ => false

/-- Python `isinstance(e, DataLoaderError)`: every constructor except `other` models a
subclass of `DataLoaderError`. -/
def Exc.isDataLoaderError : Exc → Bool
  | .other _ => false
  | _ => true

/-- The `str(e)` message carried by an exception. -/
def Exc.msg : Exc → String
  | .dataLoaderError m => m
  | .networkError m => m
  | .dataValidationError m => m
  | .cacheError m => m
  | .other m => m

/-- One cell of a DataFrame: a finite numeric value, a float NaN, or a
non-numeric object value (pandas object dtype). -/
inductive Cell where
  | num (v : Rat)
  | nan
  | str (s : String)
deriving DecidableEq, Repr

/-- Models `pd.isna` on one cell. -/
def Cell.isNan : Cell → Bool
  | .nan => true
  | _ => false

/-- Whether the cell holds a non-numeric object value. -/
def Cell.isStr : Cell → Bool
  | .str _ => true
  | _ => false

/-- Models `cell < 0` for the elementwise comparison `df[cols] < 0`; float NaN
compares false against every number. -/
def Cell.ltZero : Cell → Bool
  | .num v => v < 0
  | _ => false

/-- A pandas DataFrame: an index of timestamps and named columns of cells.
Timestamps are modelled as integers (epoch milliseconds). -/
structure DataFrame where
  index : List Int
  cols : List (String × List Cell)
deriving DecidableEq, Repr

/-- Models `df.empty`: true when either axis has length zero. -/
def DataFrame.isEmptyDf (df : DataFrame) : Bool :=
  df.index.isEmpty || df.cols.isEmpty

/-- Column lookup `df[name]`: the first column with the given name. -/
def DataFrame.getCol (df : DataFrame) (name : String) : Option (List Cell) :=
  match df.cols.find? (fun col => col.1 == name) with
  | some col => some col.2
  | none => none

/-- The columns required by `_validate_data` (the Python source uses the set
`{"open", "high", "low", "close", "volume"}`). -/
def requiredColumns : List String := ["open", "high", "low", "close", "volume"]

/-- All cells of the required columns, i.e. the data frame
`df[list(required_columns)]`. -/
def DataFrame.requiredCells (df : DataFrame) : List Cell :=
  requiredColumns.flatMap (fun c => (df.getCol c).getD [])

/-- Models `df.index.duplicated().any()`. -/
def hasDup : List Int → Bool
  | [] => false
  | x :: xs => xs.contains x || hasDup xs

/-- Models `df[col].dtype in [float, int]`: a pandas column has a numeric dtype
exactly when it holds no object (non-numeric) values; a column of floats with
NaNs still has dtype float. -/
def DataFrame.colNumericDtype (df : DataFrame) (name : String) : Bool :=
  ((df.getCol name).getD []).all (fun cell => !cell.isStr)

/-- Source `BaseDataLoader._validate_data` (`base.py:142-162`): the checks in source
order, short-circuiting at the first failure.  Comparing an object-dtype
column against `0` raises a `TypeError`, modelled by `Exc.other`. -/
def validateData (df : DataFrame) (symbol : String) : Except Exc Unit :=
  if df.isEmptyDf then
    .error (.dataValidationError ("Empty DataFrame for " ++ symbol))
  else if !(requiredColumns.all (fun c => (df.cols.map Prod.fst).contains c)) then
    .error (.dataValidationError ("Missing required columns in " ++ symbol))
  else if df.cols.any (fun col => col.2.any Cell.isNan) then
    .error (.dataValidationError ("NaN values found in " ++ symbol))
  else if df.requiredCells.any Cell.isStr then
    .error (.other "TypeError: comparison of object column with int")
  else if df.requiredCells.any Cell.ltZero then
    .error (.dataValidationError ("Negative values in " ++ symbol))
  else if hasDup df.index then
    .error (.dataValidationError ("Duplicate timestamps in " ++ symbol))
  else if !(requiredColumns.all (fun c => df.colNumericDtype c)) then
    .error (.dataValidationError "Incorrect data format in price or volume columns")
  else
    .ok ()

/-! ### Acquirer: `BaseDataLoader._load_symbol_data` -/

/-- The environment of one `_load_symbol_data` call: the outcomes of the three
awaited/IO steps for this symbol.  `cacheRead` is the behaviour of
`_load_from_cache` (`.ok none` = file absent, `.ok (some df)` = deserialized
frame, `.error` = the raised exception); `fetchResult` models
`await self.fetch_ohlcv(symbol)`; `cacheWrite` models `_save_to_cache`. -/
structure SymbolEnv where
  cacheRead : Except Exc (Option DataFrame)
  fetchResult : Except Exc DataFrame
  cacheWrite : Except Exc Unit
deriving Repr

/-- Outcome of one `_load_symbol_data` call: the returned frame or raised
exception, plus which effects were performed. -/
structure LoadOutcome where
  result : Except Exc DataFrame
  fetchCalled : Bool
  writeAttempted : Bool
deriving Repr

/-- The fetch-fresh tail of `_load_symbol_data` (`base.py:109-118`): fetch,
validate, then best-effort cache write guarded by `except CacheError`. -/
def fetchFreshPath (env : SymbolEnv) (symbol : String) : LoadOutcome :=
  match env.fetchResult with
  | .error e => { result := .error e, fetchCalled := true, writeAttempted := false }
  | .ok freshData =>
    match validateData freshData symbol with
    | .error e => { result := .error e, fetchCalled := true, writeAttempted := false }
    | .ok () =>
      match env.cacheWrite with
      | .ok () => { result := .ok freshData, fetchCalled := true, writeAttempted := true }
      | .error e =>
        if e.isCacheError then
          { result := .ok freshData, fetchCalled := true, writeAttempted := true }
        else
          { result := .error e, fetchCalled := true, writeAttempted := true }

/-- Source `BaseDataLoader._load_symbol_data` (`base.py:94-118`).  The leading `try`
block covers the cache read *and* the validation of the cached frame, but its
handler is `except CacheError`: only a `CacheError` falls through to the
fetch path; any other exception raised inside the block (in particular a
`DataValidationError` from validating the cached frame) propagates. -/
def loadSymbolData (env : SymbolEnv) (symbol : String) : LoadOutcome :=
  match env.cacheRead with
  | .error e =>
    if e.isCacheError then fetchFreshPath env symbol
    else { result := .error e, fetchCalled := false, writeAttempted := false }
  | .ok none => fetchFreshPath env symbol
  | .ok (some cachedData) =>
    match validateData cachedData symbol with
    | .ok () => { result := .ok cachedData, fetchCalled := false, writeAttempted := false }
    | .error e =>
      if e.isCacheError then fetchFreshPath env symbol
      else { result := .error e, fetchCalled := false, writeAttempted := false }

/-! ### Orchestrator: `BaseDataLoader.load_historical_data` -/

/-- Key list of the dict comprehension `{symbol: task for symbol in symbols}`:
distinct symbols in first-occurrence order. -/
def dedupFirstAux : List String → List String → List String
  | _, [] => []
  | seen, x :: xs =>
    if seen.contains x then dedupFirstAux seen xs
    else x :: dedupFirstAux (x :: seen) xs

/-- Distinct elements in first-occurrence order, as Python dict keys. -/
def dedupFirst (l : List String) : List String := dedupFirstAux [] l

/-- Outcome of `load_historical_data`: the returned symbol→frame mapping (as
an association list, keys unique) or the raised exception, plus the symbols
for which a `_load_symbol_data` task was spawned. -/
structure OrchOutcome where
  result : Except Exc (List (String × DataFrame))
  attempted : List String
deriving Repr

/-- One iteration of the collection loop of `load_historical_data`
(`base.py:77-85`): a successful `await` inserts `(symbol, frame)` into the
result dict, any exception leaves the dict untouched. -/
def collectOk (load : String → Except Exc DataFrame) (s : String) :
    Option (String × DataFrame) :=
  match load s with
  | .ok df => some (s, df)
  | .error _ => none

/-- Source `BaseDataLoader.load_historical_data` (`base.py:59-92`).  `load` is the
per-symbol behaviour of `_load_symbol_data`.  The per-task `await` is wrapped
in `except DataLoaderError: continue` followed by `except Exception: log`, so
every exception skips the symbol; the aggregate error is raised only when the
collected dict is empty. -/
def loadHistoricalData (symbols : List String)
    (load : String → Except Exc DataFrame) : OrchOutcome :=
  if symbols.isEmpty then
    { result := .error (.dataLoaderError "No symbols configured"), attempted := [] }
  else
    let data := (dedupFirst symbols).filterMap (collectOk load)
    if data.isEmpty then
      { result := .error (.dataLoaderError "No valid data loaded for any symbol"),
        attempted := symbols }
    else
      { result := .ok data, attempted := symbols }

/-! ### Cache key: `BaseDataLoader._generate_cache_filename` -/

/-- Source `_generate_cache_filename` (`base.py:120-122`):
`f"{symbol}_{timeframe}_{start_date}_{end_date}"`, where the non-symbol parts
come from loader configuration. -/
def generateCacheFilename (symbol timeframe startDate endDate : String) : String :=
  symbol ++ "_" ++ timeframe ++ "_" ++ startDate ++ "_" ++ endDate

/-! ### Provider: `BinanceDataLoader` -/

/-- One raw kline row as consumed by `_process_klines`.  Of the twelve kline
fields only the timestamp and the five price/volume fields survive the column
selection; each of those five raw values is abstracted to the result of
`pd.to_numeric(..., errors="coerce")` on it: `some v` when it coerces to the
number `v`, `none` when coercion yields NaN (non-numeric content). -/
structure RawKline where
  ts : Int
  op : Option Rat
  hi : Option Rat
  lo : Option Rat
  cl : Option Rat
  vol : Option Rat
deriving DecidableEq, Repr

/-- A row survives `df.dropna()`: all five numeric fields coerced cleanly. -/
def RawKline.complete (k : RawKline) : Bool :=
  k.op.isSome && k.hi.isSome && k.lo.isSome && k.cl.isSome && k.vol.isSome

/-- The DataFrame cell for a coerced value. -/
def cellOfOpt : Option Rat → Cell
  | some v => .num v
  | none => .nan

/-- The frame built from the cleaned rows: timestamp index, the five numeric
columns, and the appended constant `symbol` column (`df["symbol"] = symbol`). -/
def klinesToDf (rows : List RawKline) (symbol : String) : DataFrame :=
  { index := rows.map (fun k => k.ts),
    cols := [
      ("open", rows.map (fun k => cellOfOpt k.op)),
      ("high", rows.map (fun k => cellOfOpt k.hi)),
      ("low", rows.map (fun k => cellOfOpt k.lo)),
      ("close", rows.map (fun k => cellOfOpt k.cl)),
      ("volume", rows.map (fun k => cellOfOpt k.vol)),
      ("symbol", rows.map (fun _ => Cell.str symbol))] }

/-- Source `BinanceDataLoader._process_klines` (`binance.py:101-126`): coerce the
numeric columns, `dropna()` the rows, and raise `DataValidationError` when
nothing is left.  The inner raise is caught by the method's own
`except Exception` and re-wrapped, hence the composite message. -/
def processKlines (klines : List RawKline) (symbol : String) :
    Except Exc DataFrame :=
  let cleaned := klines.filter RawKline.complete
  if cleaned.isEmpty then
    .error (.dataValidationError ("Data processing error for " ++ symbol ++
      ": All data contained NaN values after cleaning"))
  else
    .ok (klinesToDf cleaned symbol)

/-- Models `str.endswith(suffix)`, written on the character lists so that it
evaluates by kernel reduction. -/
def strEndsWith (s suffix : String) : Bool :=
  suffix.data.isSuffixOf s.data

/-- One entry of the `get_ticker()` response, restricted to the consumed
fields; `quoteVolume` is abstracted to its parsed numeric value. -/
structure Ticker where
  symbol : String
  quoteVolume : Rat
deriving DecidableEq, Repr

/-- Stable descending insertion by quote volume: a pair moves ahead only of
strictly smaller volumes, preserving input order among equals, as Python's
stable `sorted(..., reverse=True)`. -/
def insertByVolDesc (x : String × Rat) : List (String × Rat) → List (String × Rat)
  | [] => [x]
  | y :: ys => if x.2 > y.2 then x :: y :: ys else y :: insertByVolDesc x ys

/-- Models `sorted(relevant, key=lambda x: x[1], reverse=True)`. -/
def sortByVolDesc (l : List (String × Rat)) : List (String × Rat) :=
  l.foldl (fun acc x => insertByVolDesc x acc) []

/-- The body of the `try` block of `get_top_liquid_pairs`
(`binance.py:130-142`), given a successful ticker response. -/
def getTopLiquidPairsBody (tickers : List Ticker) (baseAsset : String)
    (limit : Nat) : Except Exc (List String) :=
  let relevant := (tickers.filter (fun t => strEndsWith t.symbol baseAsset)).map
    (fun t => (t.symbol, t.quoteVolume))
  let sortedPairs := sortByVolDesc relevant
  let pairs := (sortedPairs.take limit).map Prod.fst
  if pairs.isEmpty then
    .error (.dataValidationError ("No pairs found for " ++ baseAsset))
  else
    .ok pairs

/-- Source `BinanceDataLoader.get_top_liquid_pairs` (`binance.py:128-146`).
`tickersResult` models `await self.client.get_ticker()`.  The trailing
`except Exception as e: raise NetworkError(...)` catches *every* exception
raised in the `try` block — including the `DataValidationError` raised for an
empty result — and re-raises it as `NetworkError`. -/
def getTopLiquidPairs (tickersResult : Except Exc (List Ticker))
    (baseAsset : String) (limit : Nat) : Except Exc (List String) :=
  match (do
      let tickers ← tickersResult
      getTopLiquidPairsBody tickers baseAsset limit :
      Except Exc (List String)) with
  | .ok pairs => .ok pairs
  | .error e => .error (.networkError ("Failed to fetch liquid pairs: " ++ e.msg))

/-! ### Concrete fixtures -/

/-- A well-formed two-bar frame: all required columns present, numeric,
non-negative, with unique increasing timestamps. -/
def goodDf : DataFrame :=
  { index := [0, 1],
    cols := [
      ("open", [.num 1, .num 2]),
      ("high", [.num 2, .num 3]),
      ("low", [.num 1, .num 1]),
      ("close", [.num 2, .num 2]),
      ("volume", [.num 10, .num 20])] }

/-- A frame violating validation: its close column holds a negative price. -/
def badDf : DataFrame :=
  { index := [0, 1],
    cols := [
      ("open", [.num 1, .num 2]),
      ("high", [.num 2, .num 3]),
      ("low", [.num 1, .num 1]),
      ("close", [.num (-1), .num 2]),
      ("volume", [.num 10, .num 20])] }

/-- A frame whose cells all validate but whose timestamps are out of order:
unique, yet not increasing. -/
def unsortedDf : DataFrame :=
  { index := [1, 0],
    cols := [
      ("open", [.num 1, .num 2]),
      ("high", [.num 2, .num 3]),
      ("low", [.num 1, .num 1]),
      ("close", [.num 2, .num 2]),
      ("volume", [.num 10, .num 20])] }

/-! ### Helper lemmas -/

theorem hasDup_eq_false_iff (l : List Int) : hasDup l = false ↔ l.Nodup := by
  induction l with
  | nil => simp [hasDup]
  | cons x xs ih => simp [hasDup, ih, List.nodup_cons]

theorem validateData_error_not_cacheError (df : DataFrame) (symbol : String)
    (e : Exc) (h : validateData df symbol = .error e) : e.isCacheError = false := by
  unfold validateData at h
  split at h; · injection h with h; subst h; rfl
  split at h; · injection h with h; subst h; rfl
  split at h; · injection h with h; subst h; rfl
  split at h; · injection h with h; subst h; rfl
  split at h; · injection h with h; subst h; rfl
  split at h; · injection h with h; subst h; rfl
  split at h; · injection h with h; subst h; rfl
  exact Except.noConfusion h

theorem getCol_isSome_of_mem (df : DataFrame) (name : String)
    (h : name ∈ df.cols.map Prod.fst) : ∃ cells, df.getCol name = some cells := by
  unfold DataFrame.getCol
  rcases List.mem_map.mp h with ⟨col, hcol, hname⟩
  have hex : ∃ c ∈ df.cols, (c.1 == name) = true := ⟨col, hcol, by simp [hname]⟩
  rcases Option.isSome_iff_exists.mp (List.find?_isSome.mpr hex) with ⟨c, hc⟩
  exact ⟨c.2, by rw [hc]⟩

theorem getCol_mem_cols (df : DataFrame) (name : String) (cells : List Cell)
    (h : df.getCol name = some cells) : (name, cells) ∈ df.cols := by
  unfold DataFrame.getCol at h
  cases hf : df.cols.find? (fun col => col.1 == name) with
  | none => rw [hf] at h; exact Option.noConfusion h
  | some col =>
    rw [hf] at h
    have hmem := List.mem_of_find?_eq_some hf
    have hp := List.find?_some hf
    have hn : col.1 = name := by simpa using hp
    have hcells : col.2 = cells := by injection h
    have : (name, cells) = col := by
      cases col
      simp_all
    rw [this]
    exact hmem

theorem mem_requiredCells (df : DataFrame) (c : String) (cells : List Cell)
    (hc : c ∈ requiredColumns) (hg : df.getCol c = some cells) (cell : Cell)
    (hcell : cell ∈ cells) : cell ∈ df.requiredCells := by
  unfold DataFrame.requiredCells
  exact List.mem_flatMap.mpr ⟨c, hc, by rw [hg]; exact hcell⟩

theorem cell_num_of_checks (cell : Cell) (hn : cell.isNan = false)
    (hs : cell.isStr = false) (hl : cell.ltZero = false) :
    ∃ v : Rat, cell = .num v ∧ 0 ≤ v := by
  cases cell with
  | num v =>
    refine ⟨v, rfl, ?_⟩
    have : ¬ (v < 0) := by simpa [Cell.ltZero] using hl
    exact le_of_not_lt this
  | nan => simp [Cell.isNan] at hn
  | str s => simp [Cell.isStr] at hs

/-- **C2 (amended)** — every series accepted by `_validate_data` has all five
price/volume columns present, with every cell a non-negative finite number
and one cell per bar, and its timestamps are unique.  (The source checks
`df.index.duplicated()`, i.e. uniqueness only — it never checks ordering.) -/
theorem validateData_ok_bars (df : DataFrame) (symbol : String)
    (hwf : ∀ col ∈ df.cols, col.2.length = df.index.length)
    (h : validateData df symbol = .ok ()) :
    (∀ c ∈ requiredColumns, ∃ cells, df.getCol c = some cells ∧
        cells.length = df.index.length ∧
        ∀ cell ∈ cells, ∃ v : Rat, cell = .num v ∧ 0 ≤ v) ∧
    df.index.Nodup := by
  unfold validateData at h
  split at h; · exact Except.noConfusion h
  rename_i h1
  split at h; · exact Except.noConfusion h
  rename_i h2
  split at h; · exact Except.noConfusion h
  rename_i h3
  split at h; · exact Except.noConfusion h
  rename_i h4
  split at h; · exact Except.noConfusion h
  rename_i h5
  split at h; · exact Except.noConfusion h
  rename_i h6
  split at h; · exact Except.noConfusion h
  rename_i h7
  have h2' : ∀ c ∈ requiredColumns, c ∈ df.cols.map Prod.fst := by simpa using h2
  have h3' : ∀ col ∈ df.cols, ∀ cell ∈ col.2, cell.isNan = false := by simpa using h3
  have h4' : ∀ cell ∈ df.requiredCells, cell.isStr = false := by simpa using h4
  have h5' : ∀ cell ∈ df.requiredCells, cell.ltZero = false := by simpa using h5
  have h6' : hasDup df.index = false := by simpa using h6
  constructor
  · intro c hc
    rcases getCol_isSome_of_mem df c (h2' c hc) with ⟨cells, hg⟩
    have hcolmem := getCol_mem_cols df c cells hg
    refine ⟨cells, hg, hwf (c, cells) hcolmem, ?_⟩
    intro cell hcell
    have hreq := mem_requiredCells df c cells hc hg cell hcell
    exact cell_num_of_checks cell (h3' (c, cells) hcolmem cell hcell)
      (h4' cell hreq) (h5' cell hreq)
  · exact (hasDup_eq_false_iff df.index).mp h6'

/-- **C2 counterexample** — a frame with unique but decreasing timestamps
passes `_validate_data`, so acceptance does not imply strictly increasing
timestamps. -/
theorem validateData_ok_not_sorted :
    validateData unsortedDf "AAA" = .ok () ∧
      ¬ List.Sorted (· < ·) unsortedDf.index := by
  constructor
  · rfl
  · decide

/-- **C2 witness** — the amended theorem applied to a concrete valid frame. -/
theorem validateData_ok_bars_witness : goodDf.index.Nodup :=
  (validateData_ok_bars goodDf "AAA" (by decide) rfl).2

/-! ### Orchestrator lemmas -/

theorem mem_dedupFirstAux (l : List String) :
    ∀ (seen : List String) (s : String),
      s ∈ dedupFirstAux seen l ↔ (s ∈ l ∧ s ∉ seen) := by
  induction l with
  | nil => intro seen s; simp [dedupFirstAux]
  | cons x xs ih =>
    intro seen s
    simp only [dedupFirstAux]
    split
    · rename_i hx
      have hxseen : x ∈ seen := by simpa using hx
      rw [ih]
      simp only [List.mem_cons]
      constructor
      · rintro ⟨hs, hns⟩; exact ⟨Or.inr hs, hns⟩
      · rintro ⟨hs | hs, hns⟩
        · exact absurd (hs ▸ hxseen) hns
        · exact ⟨hs, hns⟩
    · rename_i hx
      have hxseen : x ∉ seen := by simpa using hx
      simp only [List.mem_cons, ih, List.mem_cons]
      constructor
      · rintro (rfl | ⟨hs, hns⟩)
        · exact ⟨Or.inl rfl, hxseen⟩
        · exact ⟨Or.inr hs, fun hc => hns (Or.inr hc)⟩
      · rintro ⟨rfl | hs, hns⟩
        · exact Or.inl rfl
        · by_cases hsx : s = x
          · exact Or.inl hsx
          · exact Or.inr ⟨hs, fun hc => by
              rcases hc with h | h
              · exact hsx h
              · exact hns h⟩

theorem mem_dedupFirst (l : List String) (s : String) :
    s ∈ dedupFirst l ↔ s ∈ l := by
  unfold dedupFirst
  rw [mem_dedupFirstAux]
  simp

theorem nodup_dedupFirstAux (l : List String) :
    ∀ seen : List String, (dedupFirstAux seen l).Nodup := by
  induction l with
  | nil => intro seen; simp [dedupFirstAux]
  | cons x xs ih =>
    intro seen
    simp only [dedupFirstAux]
    split
    · exact ih seen
    · refine List.nodup_cons.mpr ⟨?_, ih (x :: seen)⟩
      intro hmem
      have := (mem_dedupFirstAux xs (x :: seen) x).mp hmem
      exact this.2 (List.mem_cons_self x seen)

theorem nodup_dedupFirst (l : List String) : (dedupFirst l).Nodup :=
  nodup_dedupFirstAux l []

theorem collectOk_eq_some (load : String → Except Exc DataFrame)
    (a s : String) (df : DataFrame) :
    collectOk load a = some (s, df) ↔ (a = s ∧ load s = .ok df) := by
  unfold collectOk
  cases hl : load a with
  | ok d =>
    simp only [Option.some.injEq, Prod.mk.injEq]
    constructor
    · rintro ⟨rfl, rfl⟩; exact ⟨rfl, hl⟩
    · rintro ⟨rfl, hs⟩
      rw [hl] at hs
      injection hs with hs
      exact ⟨rfl, hs⟩
  | error e =>
    simp only [reduceCtorEq, false_iff, not_and]
    rintro rfl hs
    rw [hl] at hs
    exact Except.noConfusion hs

theorem collectOk_eq_none (load : String → Except Exc DataFrame) (s : String) :
    collectOk load s = none ↔ ∃ e, load s = .error e := by
  unfold collectOk
  cases hl : load s with
  | ok d => simp
  | error e => simp

theorem mem_collected (symbols : List String)
    (load : String → Except Exc DataFrame) (s : String) (df : DataFrame) :
    (s, df) ∈ (dedupFirst symbols).filterMap (collectOk load) ↔
      (s ∈ symbols ∧ load s = .ok df) := by
  rw [List.mem_filterMap]
  constructor
  · rintro ⟨a, ha, hsome⟩
    rcases (collectOk_eq_some load a s df).mp hsome with ⟨rfl, hload⟩
    exact ⟨(mem_dedupFirst symbols a).mp ha, hload⟩
  · rintro ⟨hs, hload⟩
    exact ⟨s, (mem_dedupFirst symbols s).mpr hs,
      (collectOk_eq_some load s s df).mpr ⟨rfl, hload⟩⟩

theorem collected_keys_sub (l : List String)
    (load : String → Except Exc DataFrame) (s : String)
    (h : s ∈ (l.filterMap (collectOk load)).map Prod.fst) : s ∈ l := by
  rcases List.mem_map.mp h with ⟨⟨a, df⟩, hmem, hfst⟩
  rcases List.mem_filterMap.mp hmem with ⟨b, hb, hsome⟩
  rcases (collectOk_eq_some load b a df).mp hsome with ⟨hba, _⟩
  have hbs : b = s := by rw [hba]; exact hfst
  exact hbs ▸ hb

theorem collected_keys_nodup (l : List String)
    (load : String → Except Exc DataFrame) (hl : l.Nodup) :
    ((l.filterMap (collectOk load)).map Prod.fst).Nodup := by
  induction l with
  | nil => simp
  | cons x xs ih =>
    rcases List.nodup_cons.mp hl with ⟨hx, hxs⟩
    rw [List.filterMap_cons]
    cases hc : collectOk load x with
    | none => exact ih hxs
    | some p =>
      rcases p with ⟨a, df⟩
      rcases (collectOk_eq_some load x a df).mp hc with ⟨rfl, _⟩
      simp only [List.map_cons]
      refine List.nodup_cons.mpr ⟨?_, ih hxs⟩
      intro hmem
      exact hx (collected_keys_sub xs load x hmem)

theorem collected_eq_nil (symbols : List String)
    (load : String → Except Exc DataFrame) :
    (dedupFirst symbols).filterMap (collectOk load) = [] ↔
      ∀ s ∈ symbols, ∃ e, load s = .error e := by
  rw [List.filterMap_eq_nil_iff]
  constructor
  · intro h s hs
    exact (collectOk_eq_none load s).mp
      (h s ((mem_dedupFirst symbols s).mpr hs))
  · intro h s hs
    exact (collectOk_eq_none load s).mpr (h s ((mem_dedupFirst symbols s).mp hs))

theorem isEmpty_false_of_ne_nil {α : Type} {l : List α} (h : l ≠ []) :
    l.isEmpty = false := by
  cases l with
  | nil => exact absurd rfl h
  | cons x xs => rfl

/-- Exhaustive case split on the outcome of `load_historical_data`: the empty
configuration error, the all-failed aggregate error, or success with exactly
the collected entries. -/
theorem loadHistoricalData_cases (symbols : List String)
    (load : String → Except Exc DataFrame) :
    (symbols = [] ∧ (loadHistoricalData symbols load).result =
        .error (.dataLoaderError "No symbols configured")) ∨
    (symbols ≠ [] ∧ (∀ s ∈ symbols, ∃ e, load s = .error e) ∧
      (loadHistoricalData symbols load).result =
        .error (.dataLoaderError "No valid data loaded for any symbol")) ∨
    (symbols ≠ [] ∧
      (dedupFirst symbols).filterMap (collectOk load) ≠ [] ∧
      (loadHistoricalData symbols load).result =
        .ok ((dedupFirst symbols).filterMap (collectOk load))) := by
  cases symbols with
  | nil => exact Or.inl ⟨rfl, rfl⟩
  | cons x xs =>
    have hne : x :: xs ≠ [] := List.cons_ne_nil x xs
    have hstep : loadHistoricalData (x :: xs) load =
        (if ((dedupFirst (x :: xs)).filterMap (collectOk load)).isEmpty then
          { result := .error (.dataLoaderError "No valid data loaded for any symbol"),
            attempted := x :: xs }
        else
          { result := .ok ((dedupFirst (x :: xs)).filterMap (collectOk load)),
            attempted := x :: xs }) := rfl
    by_cases hd : (dedupFirst (x :: xs)).filterMap (collectOk load) = []
    · refine Or.inr (Or.inl ⟨hne, (collected_eq_nil (x :: xs) load).mp hd, ?_⟩)
      rw [hstep, if_pos (List.isEmpty_iff.mpr hd)]
    · refine Or.inr (Or.inr ⟨hne, hd, ?_⟩)
      rw [hstep, if_neg (fun hc => hd (List.isEmpty_iff.mp hc))]

/-- **C4** — `load_historical_data` raises `DataLoaderError` exactly when the
symbol list is empty or every per-symbol load fails, and with an empty list no
per-symbol pipeline (hence no cache read or fetch) is ever started. -/
theorem loadHistoricalData_raises_iff (symbols : List String)
    (load : String → Except Exc DataFrame) :
    ((∃ e, (loadHistoricalData symbols load).result = .error e ∧
        e.isDataLoaderError = true) ↔
      (symbols = [] ∨ ∀ s ∈ symbols, ∃ e, load s = .error e)) ∧
    (symbols = [] → (loadHistoricalData symbols load).attempted = []) := by
  rcases loadHistoricalData_cases symbols load with
    ⟨hnil, hres⟩ | ⟨hne, hall, hres⟩ | ⟨hne, hdne, hres⟩
  · constructor
    · constructor
      · intro _; exact Or.inl hnil
      · intro _; exact ⟨.dataLoaderError "No symbols configured", hres, rfl⟩
    · intro _; subst hnil; rfl
  · constructor
    · constructor
      · intro _; exact Or.inr hall
      · intro _
        exact ⟨.dataLoaderError "No valid data loaded for any symbol", hres, rfl⟩
    · intro hc; exact absurd hc hne
  · constructor
    · constructor
      · rintro ⟨e, he, _⟩
        rw [hres] at he
        exact Except.noConfusion he
      · rintro (hc | hall)
        · exact absurd hc hne
        · exact absurd ((collected_eq_nil symbols load).mpr hall) hdne
    · intro hc; exact absurd hc hne

/-- **C4 witness** — the empty configuration raises before any task starts. -/
theorem loadHistoricalData_raises_iff_witness :
    (loadHistoricalData [] (fun _ => .ok goodDf)).attempted = [] :=
  (loadHistoricalData_raises_iff [] (fun _ => .ok goodDf)).2 rfl

/-- **C5** — when at least one symbol loads and the failures are
`DataLoaderError`s, `load_historical_data` returns (raises nothing) and its
result is a mapping with unique keys holding exactly the pairs
`(symbol, series)` with a successful load. -/
theorem loadHistoricalData_someSucceed (symbols : List String)
    (load : String → Except Exc DataFrame)
    (hne : symbols ≠ [])
    (hfail : ∀ s ∈ symbols, (∃ df, load s = .ok df) ∨
      (∃ e, load s = .error e ∧ e.isDataLoaderError = true))
    (hex : ∃ s ∈ symbols, ∃ df, load s = .ok df) :
    ∃ m, (loadHistoricalData symbols load).result = .ok m ∧
      (m.map Prod.fst).Nodup ∧
      (∀ s df, (s, df) ∈ m ↔ (s ∈ symbols ∧ load s = .ok df)) := by
  rcases loadHistoricalData_cases symbols load with
    ⟨hnil, _⟩ | ⟨_, hall, _⟩ | ⟨_, _, hres⟩
  · exact absurd hnil hne
  · rcases hex with ⟨s0, hs0, df0, hdf0⟩
    rcases hall s0 hs0 with ⟨e, he⟩
    rw [hdf0] at he
    exact Except.noConfusion he
  · refine ⟨(dedupFirst symbols).filterMap (collectOk load), hres, ?_, ?_⟩
    · exact collected_keys_nodup (dedupFirst symbols) load (nodup_dedupFirst symbols)
    · intro s df
      exact mem_collected symbols load s df

def c5Load : String → Except Exc DataFrame :=
  fun s => if s == "A" then .ok goodDf else .error (.networkError "request failed")

/-- **C5 witness** — two symbols, one provider failure, one success. -/
theorem loadHistoricalData_someSucceed_witness :
    ∃ m, (loadHistoricalData ["A", "B"] c5Load).result = .ok m ∧
      (m.map Prod.fst).Nodup ∧
      (∀ s df, (s, df) ∈ m ↔ (s ∈ ["A", "B"] ∧ c5Load s = .ok df)) :=
  loadHistoricalData_someSucceed ["A", "B"] c5Load (by simp)
    (by
      intro s hs
      rcases List.mem_cons.mp hs with rfl | hs
      · exact Or.inl ⟨goodDf, rfl⟩
      rcases List.mem_cons.mp hs with rfl | hs
      · exact Or.inr ⟨.networkError "request failed", rfl, rfl⟩
      · cases hs)
    ⟨"A", by simp, goodDf, rfl⟩

/-- **C8** — every per-symbol exception, of any class, is absorbed by the
collection loop: the only errors `load_historical_data` ever raises are the
two aggregate `DataLoaderError`s, a failing symbol is omitted from the
returned mapping, and the successes are returned regardless of how the other
symbols failed. -/
theorem loadHistoricalData_absorbs_all (symbols : List String)
    (load : String → Except Exc DataFrame) :
    (∀ e, (loadHistoricalData symbols load).result = .error e →
      (e = .dataLoaderError "No symbols configured" ∨
       e = .dataLoaderError "No valid data loaded for any symbol")) ∧
    (∀ m s, (loadHistoricalData symbols load).result = .ok m → s ∈ symbols →
      (∃ e, load s = .error e) → s ∉ m.map Prod.fst) ∧
    ((∃ s ∈ symbols, ∃ df, load s = .ok df) →
      ∃ m, (loadHistoricalData symbols load).result = .ok m ∧
        ∀ s df, s ∈ symbols → load s = .ok df → (s, df) ∈ m) := by
  refine ⟨?_, ?_, ?_⟩
  · intro e he
    rcases loadHistoricalData_cases symbols load with
      ⟨_, hres⟩ | ⟨_, _, hres⟩ | ⟨_, _, hres⟩
    · rw [hres] at he; injection he with he; exact Or.inl he.symm
    · rw [hres] at he; injection he with he; exact Or.inr he.symm
    · rw [hres] at he; exact Except.noConfusion he
  · intro m s hok hs hfail
    rcases loadHistoricalData_cases symbols load with
      ⟨_, hres⟩ | ⟨_, _, hres⟩ | ⟨_, _, hres⟩
    · rw [hres] at hok; exact Except.noConfusion hok
    · rw [hres] at hok; exact Except.noConfusion hok
    · rw [hres] at hok
      injection hok with hok
      subst hok
      intro hmem
      rcases List.mem_map.mp hmem with ⟨⟨a, df⟩, hadf, hfst⟩
      have hsload : load s = .ok df := by
        have := (mem_collected symbols load a df).mp hadf
        have has : a = s := hfst
        exact has ▸ this.2
      rcases hfail with ⟨e, he⟩
      rw [hsload] at he
      exact Except.noConfusion he
  · rintro ⟨s0, hs0, df0, hdf0⟩
    rcases loadHistoricalData_cases symbols load with
      ⟨hnil, _⟩ | ⟨_, hall, _⟩ | ⟨_, _, hres⟩
    · subst hnil; cases hs0
    · rcases hall s0 hs0 with ⟨e, he⟩
      rw [hdf0] at he
      exact Except.noConfusion he
    · refine ⟨(dedupFirst symbols).filterMap (collectOk load), hres, ?_⟩
      intro s df hs hload
      exact (mem_collected symbols load s df).mpr ⟨hs, hload⟩

def c8Load : String → Except Exc DataFrame :=
  fun s => if s == "A" then .ok goodDf else .error (.other "RuntimeError: boom")

/-- **C8 witness** — a symbol failing with an exception outside the
`DataLoaderError` hierarchy is merely omitted from the result. -/
theorem loadHistoricalData_absorbs_all_witness :
    "B" ∉ ([("A", goodDf)] : List (String × DataFrame)).map Prod.fst :=
  (loadHistoricalData_absorbs_all ["A", "B"] c8Load).2.1 [("A", goodDf)] "B"
    rfl (by simp) ⟨.other "RuntimeError: boom", rfl⟩

/-! ### Acquirer theorems -/

/-- The cache-read environment field never influences the fetch-fresh tail. -/
theorem fetchFreshPath_ignores_cacheRead (env : SymbolEnv) (symbol : String)
    (r : Except Exc (Option DataFrame)) :
    fetchFreshPath { env with cacheRead := r } symbol = fetchFreshPath env symbol := rfl

/-- Errors coming out of the fetch-fresh tail are never `CacheError`s, as long
as the provider fetch itself does not raise one. -/
theorem fetchFreshPath_error_not_cacheError (env : SymbolEnv) (symbol : String)
    (hfetch : ∀ e, env.fetchResult = .error e → e.isCacheError = false)
    (e : Exc) (h : (fetchFreshPath env symbol).result = .error e) :
    e.isCacheError = false := by
  unfold fetchFreshPath at h
  cases hf : env.fetchResult with
  | error ef =>
    rw [hf] at h
    dsimp only at h
    injection h with h
    exact h ▸ hfetch ef hf
  | ok freshData =>
    rw [hf] at h
    dsimp only at h
    cases hv : validateData freshData symbol with
    | error ev =>
      rw [hv] at h
      dsimp only at h
      injection h with h
      exact h ▸ validateData_error_not_cacheError freshData symbol ev hv
    | ok u =>
      cases u
      rw [hv] at h
      dsimp only at h
      cases hw : env.cacheWrite with
      | ok u' => cases u'; rw [hw] at h; dsimp only at h; exact Except.noConfusion h
      | error ew =>
        rw [hw] at h
        dsimp only at h
        by_cases hc : ew.isCacheError = true
        · rw [if_pos hc] at h; exact Except.noConfusion h
        · rw [if_neg hc] at h
          injection h with h
          subst h
          exact Bool.not_eq_true ew.isCacheError |>.mp hc

/-- **C1 (code evaluated at the failing input)** — with a present cached
series that fails validation, `_load_symbol_data` raises the
`DataValidationError` to its caller and never invokes the provider fetch: the
`except CacheError` handler does not cover it, contradicting the treat-as-miss
contract. -/
theorem cachedInvalid_propagates_without_fetch :
    loadSymbolData
        { cacheRead := .ok (some badDf), fetchResult := .ok goodDf,
          cacheWrite := .ok () } "AAA" =
      { result := .error (.dataValidationError "Negative values in AAA"),
        fetchCalled := false, writeAttempted := false } := rfl

/-- **C6** — a present cached series that passes validation is returned as-is
and the provider fetch is never invoked. -/
theorem cacheHit_skips_fetch (env : SymbolEnv) (symbol : String) (df : DataFrame)
    (hread : env.cacheRead = .ok (some df))
    (hvalid : validateData df symbol = .ok ()) :
    loadSymbolData env symbol =
      { result := .ok df, fetchCalled := false, writeAttempted := false } := by
  unfold loadSymbolData
  rw [hread]
  dsimp only
  rw [hvalid]

/-- **C6 witness** — cache hit with an unreachable (failing) provider. -/
theorem cacheHit_skips_fetch_witness :
    loadSymbolData
        { cacheRead := .ok (some goodDf),
          fetchResult := .error (.networkError "API request failed"),
          cacheWrite := .ok () } "AAA" =
      { result := .ok goodDf, fetchCalled := false, writeAttempted := false } :=
  cacheHit_skips_fetch _ "AAA" goodDf rfl rfl

/-- **C7** — `_load_symbol_data` never lets a `CacheError` reach its caller
(provided the provider fetch itself never raises one): a cache-read
`CacheError` makes the pipeline behave exactly as on a miss, and a cache-write
`CacheError` after a validated fetch still returns the fresh series. -/
theorem loadSymbolData_absorbs_cacheError (env : SymbolEnv) (symbol : String)
    (hfetch : ∀ e, env.fetchResult = .error e → e.isCacheError = false) :
    (∀ e, (loadSymbolData env symbol).result = .error e →
      e.isCacheError = false) ∧
    (∀ e, e.isCacheError = true →
      loadSymbolData { env with cacheRead := .error e } symbol =
        loadSymbolData { env with cacheRead := .ok none } symbol) ∧
    (∀ df e,
      (env.cacheRead = .ok none ∨
        (∃ er, env.cacheRead = .error er ∧ er.isCacheError = true)) →
      env.fetchResult = .ok df → validateData df symbol = .ok () →
      env.cacheWrite = .error e → e.isCacheError = true →
      (loadSymbolData env symbol).result = .ok df) := by
  refine ⟨?_, ?_, ?_⟩
  · intro e he
    unfold loadSymbolData at he
    cases hr : env.cacheRead with
    | error er =>
      rw [hr] at he
      dsimp only at he
      by_cases hc : er.isCacheError = true
      · rw [if_pos hc] at he
        exact fetchFreshPath_error_not_cacheError env symbol hfetch e he
      · rw [if_neg hc] at he
        injection he with he
        subst he
        exact Bool.not_eq_true er.isCacheError |>.mp hc
    | ok o =>
      cases o with
      | none =>
        rw [hr] at he
        dsimp only at he
        exact fetchFreshPath_error_not_cacheError env symbol hfetch e he
      | some cachedData =>
        rw [hr] at he
        dsimp only at he
        cases hv : validateData cachedData symbol with
        | ok u => cases u; rw [hv] at he; dsimp only at he; exact Except.noConfusion he
        | error ev =>
          rw [hv] at he
          dsimp only at he
          by_cases hc : ev.isCacheError = true
          · rw [if_pos hc] at he
            exact fetchFreshPath_error_not_cacheError env symbol hfetch e he
          · rw [if_neg hc] at he
            injection he with he
            subst he
            exact Bool.not_eq_true ev.isCacheError |>.mp hc
  · intro e hc
    show (if e.isCacheError then
        fetchFreshPath { env with cacheRead := .error e } symbol
      else _) = fetchFreshPath { env with cacheRead := .ok none } symbol
    rw [if_pos hc]
    rfl
  · rintro df e hread hfetchOk hvalid hwrite hcache
    have hres : (fetchFreshPath env symbol).result = .ok df := by
      unfold fetchFreshPath
      rw [hfetchOk]
      dsimp only
      rw [hvalid]
      dsimp only
      rw [hwrite]
      dsimp only
      rw [if_pos hcache]
    rcases hread with hr | ⟨er, hr, hcr⟩
    · unfold loadSymbolData
      rw [hr]
      exact hres
    · unfold loadSymbolData
      rw [hr]
      dsimp only
      rw [if_pos hcr]
      exact hres

def c7Env : SymbolEnv :=
  { cacheRead := .error (.cacheError "Failed to load cache: corrupt parquet"),
    fetchResult := .ok goodDf,
    cacheWrite := .error (.cacheError "Failed to save cache: disk full") }

/-- **C7 witness** — both cache read and cache write fail with `CacheError`,
and the freshly fetched series is still returned. -/
theorem loadSymbolData_absorbs_cacheError_witness :
    (loadSymbolData c7Env "AAA").result = .ok goodDf :=
  (loadSymbolData_absorbs_cacheError c7Env "AAA"
      (fun _ h => nomatch h)).2.2 goodDf
    (.cacheError "Failed to save cache: disk full")
    (Or.inr ⟨.cacheError "Failed to load cache: corrupt parquet", rfl, rfl⟩)
    rfl rfl rfl rfl

/-! ### Provider theorems -/

def c3Tickers : List Ticker := [{ symbol := "ETHUSDT", quoteVolume := 1 }]

/-- **C3 (code evaluated at the failing input)** — with a successful ticker
query containing no symbol ending in the base asset, `get_top_liquid_pairs`
raises `NetworkError`, not `DataValidationError`: the inner
`DataValidationError` is swallowed by the method's own `except Exception` and
re-wrapped.  Transport failure also surfaces as `NetworkError`. -/
theorem emptyPairs_raise_networkError :
    getTopLiquidPairs (.ok c3Tickers) "BTC" 100 =
      .error (.networkError "Failed to fetch liquid pairs: No pairs found for BTC") ∧
    getTopLiquidPairs (.error (.other "connection reset")) "BTC" 100 =
      .error (.networkError "Failed to fetch liquid pairs: connection reset") :=
  ⟨rfl, rfl⟩

/-- **C9** — the underscore-joined cache filename is not an injective function
of the `(symbol, timeframe, start, end)` four-tuple: two distinct tuples
collide on the same cache entry. -/
theorem cacheFilename_not_injective :
    ∃ t1 t2 : String × String × String × String, t1 ≠ t2 ∧
      generateCacheFilename t1.1 t1.2.1 t1.2.2.1 t1.2.2.2 =
        generateCacheFilename t2.1 t2.2.1 t2.2.2.1 t2.2.2.2 := by
  refine ⟨("ETH_1m", "5m", "a", "b"), ("ETH", "1m_5m", "a", "b"), ?_, ?_⟩
  · decide
  · rfl

/-- **C10** — `_process_klines` silently drops exactly the rows with a
non-numeric field: it raises `DataValidationError` precisely when every row is
dropped, and otherwise returns the surviving rows as the series, possibly
fewer than delivered. -/
theorem processKlines_drops_incomplete (klines : List RawKline) (symbol : String) :
    ((∀ k ∈ klines, k.complete = false) ↔
      (∃ m, processKlines klines symbol = .error (.dataValidationError m))) ∧
    (∀ df, processKlines klines symbol = .ok df →
      df.index = (klines.filter RawKline.complete).map (fun k => k.ts) ∧
      df.index.length ≤ klines.length ∧
      (∀ k ∈ klines, k.complete = true → k.ts ∈ df.index)) := by
  by_cases hall : klines.filter RawKline.complete = []
  · have hstep : processKlines klines symbol =
        .error (.dataValidationError ("Data processing error for " ++ symbol ++
          ": All data contained NaN values after cleaning")) := by
      unfold processKlines
      rw [if_pos (List.isEmpty_iff.mpr hall)]
    constructor
    · constructor
      · intro _; exact ⟨_, hstep⟩
      · intro _ k hk
        have := List.filter_eq_nil_iff.mp hall k hk
        exact Bool.not_eq_true _ |>.mp this
    · intro df hdf
      rw [hstep] at hdf
      exact Except.noConfusion hdf
  · have hstep : processKlines klines symbol =
        .ok (klinesToDf (klines.filter RawKline.complete) symbol) := by
      unfold processKlines
      rw [if_neg (fun hc => hall (List.isEmpty_iff.mp hc))]
    constructor
    · constructor
      · intro hcomp
        exact absurd (List.filter_eq_nil_iff.mpr
          (fun k hk => by rw [hcomp k hk]; exact Bool.false_ne_true)) hall
      · rintro ⟨m, hm⟩
        rw [hstep] at hm
        exact Except.noConfusion hm
    · intro df hdf
      rw [hstep] at hdf
      injection hdf with hdf
      subst hdf
      refine ⟨rfl, ?_, ?_⟩
      · show ((klines.filter RawKline.complete).map (fun k => k.ts)).length ≤
          klines.length
        rw [List.length_map]
        exact List.length_filter_le RawKline.complete klines
      · intro k hk hcomp
        exact List.mem_map.mpr ⟨k, List.mem_filter.mpr ⟨hk, hcomp⟩, rfl⟩

def c10Klines : List RawKline :=
  [{ ts := 0, op := some 1, hi := some 2, lo := some 1, cl := some 2, vol := some 3 },
   { ts := 60000, op := none, hi := some 2, lo := some 1, cl := some 2, vol := some 3 }]

def c10Df : DataFrame := klinesToDf (c10Klines.filter RawKline.complete) "ETHBTC"

/-- **C10 witness** — one clean row and one row with a non-numeric open price:
the returned series is shorter than the input. -/
theorem processKlines_drops_incomplete_witness :
    c10Df.index.length ≤ c10Klines.length :=
  ((processKlines_drops_incomplete c10Klines "ETHBTC").2 c10Df rfl).2.1

end Apex
